import Mathlib

/-
Verification of the support-ticket tracker core: the Thread Registry,
the Permission Resolver and the AI Job Pipeline, embedded shallowly from
the Python sources (src/ai_handler.py, src/slack_bot/db.py,
src/slack_bot/permissions.py, src/shared/models.py).
-/

set_option maxRecDepth 8000

namespace John

/-- SQL LIKE with a pattern of the form percent-colon-text: true when the
string ends with the given suffix. -/
def likeEndsWith (s suffix : String) : Bool :=
  suffix.toList.isSuffixOf s.toList

/-- Python-style dynamic values, covering the JSON domain used for AI job
outputs, event metadata and AI summaries (dict, list, str, numbers kept as
their lexeme, booleans, None). -/
inductive PyVal where
  | null
  | bool (b : Bool)
  | num (lexeme : String)
  | str (s : String)
  | list (xs : List PyVal)
  | dict (kvs : List (String × PyVal))

/-- Python dict.get on an association list: first binding wins (our dicts
are built with duplicate keys collapsed, mirroring dict semantics). -/
def pyGet (kvs : List (String × PyVal)) (k : String) : Option PyVal :=
  (kvs.find? (fun kv => kv.fst == k)).map (fun kv => kv.snd)

/-- True when a numeric lexeme denotes zero (Python 0 and 0.0 are falsy):
every mantissa digit is 0. -/
def zeroLexeme (s : String) : Bool :=
  ((s.toList.takeWhile (fun c => c ≠ 'e' ∧ c ≠ 'E')).filter Char.isDigit).all
    (fun c => c == '0')

/-- Python truthiness on the modeled value domain. -/
def truthy : PyVal → Bool
  | .null => false
  | .bool b => b
  | .num s => !(zeroLexeme s)
  | .str s => s != ""
  | .list xs => !xs.isEmpty
  | .dict kvs => !kvs.isEmpty

/-- Truthiness of a Python expression of the form d.get(k): a missing key
yields None, which is falsy. -/
def optTruthy (o : Option PyVal) : Bool :=
  match o with
  | some v => truthy v
  | none => false

mutual

/-- Python repr of a value (used by str() on containers). String escaping
is not reproduced; the modeled flows only render plain strings. -/
def pyRepr : PyVal → String
  | .null => "None"
  | .bool b => if b then "True" else "False"
  | .num s => s
  | .str s => "\x27" ++ s ++ "\x27"
  | .list xs => "[" ++ String.intercalate ", " (pyReprList xs) ++ "]"
  | .dict kvs => "\x7b" ++ String.intercalate ", " (pyReprEntries kvs) ++ "\x7d"

/-- Helper for pyRepr on list members. -/
def pyReprList : List PyVal → List String
  | [] => []
  | v :: rest => pyRepr v :: pyReprList rest

/-- Helper for pyRepr on dict entries. -/
def pyReprEntries : List (String × PyVal) → List String
  | [] => []
  | kv :: rest => ("\x27" ++ kv.fst ++ "\x27: " ++ pyRepr kv.snd) :: pyReprEntries rest

end

/-- Python str() of a value, as used by f-string interpolation. -/
def pyStr : PyVal → String
  | .str s => s
  | v => pyRepr v

/-- Python iteration over a value: lists yield elements, strings yield
one-character strings, dicts yield keys. Iterating any other value raises
TypeError in Python; no modeled call site reaches that case. -/
def pyIter : PyVal → List PyVal
  | .list xs => xs
  | .str s => s.toList.map (fun c => .str (String.mk [c]))
  | .dict kvs => kvs.map (fun kv => .str kv.fst)
  | _ => []

/-- Python slice v[:n] on strings and lists (the only sliceable values in
the modeled flows). -/
def pySlice (n : Nat) : PyVal → PyVal
  | .str s => .str (s.take n)
  | .list xs => .list (xs.take n)
  | v => v

/-- JSON whitespace skipping, as in the json module. -/
def skipWs : List Char → List Char
  | [] => []
  | c :: rest =>
    if c == ' ' || c == '\t' || c == '\n' || c == '\r' then skipWs rest
    else c :: rest

/-- Value of a hexadecimal digit, for \u escapes. -/
def hexVal (c : Char) : Option Nat :=
  if '0' ≤ c ∧ c ≤ '9' then some (c.toNat - '0'.toNat)
  else if 'a' ≤ c ∧ c ≤ 'f' then some (c.toNat - 'a'.toNat + 10)
  else if 'A' ≤ c ∧ c ≤ 'F' then some (c.toNat - 'A'.toNat + 10)
  else none

/-- Parse the body of a JSON string literal, positioned after the opening
quote; returns the decoded string and the remaining input. -/
def parseJString (fuel : Nat) (acc : List Char) (cs : List Char) :
    Option (String × List Char) :=
  match fuel with
  | 0 => none
  | fuel + 1 =>
    match cs with
    | [] => none
    | c :: rest =>
      if c == '"' then some (String.mk acc.reverse, rest)
      else if c == '\\' then
        match rest with
        | [] => none
        | e :: rest2 =>
          if e == '"' then parseJString fuel ('"' :: acc) rest2
          else if e == '\\' then parseJString fuel ('\\' :: acc) rest2
          else if e == '/' then parseJString fuel ('/' :: acc) rest2
          else if e == 'b' then parseJString fuel (Char.ofNat 8 :: acc) rest2
          else if e == 'f' then parseJString fuel (Char.ofNat 12 :: acc) rest2
          else if e == 'n' then parseJString fuel ('\n' :: acc) rest2
          else if e == 'r' then parseJString fuel ('\r' :: acc) rest2
          else if e == 't' then parseJString fuel ('\t' :: acc) rest2
          else if e == 'u' then
            match rest2 with
            | h1 :: h2 :: h3 :: h4 :: rest3 =>
              match hexVal h1, hexVal h2, hexVal h3, hexVal h4 with
              | some a, some b, some c2, some d =>
                parseJString fuel
                  (Char.ofNat (((a * 16 + b) * 16 + c2) * 16 + d) :: acc) rest3
              | _, _, _, _ => none
            | _ => none
          else none
      else if c.toNat < 32 then none
      else parseJString fuel (c :: acc) rest

/-- Split off a maximal run of decimal digits. -/
def takeDigits : List Char → List Char × List Char
  | [] => ([], [])
  | c :: rest =>
    if c.isDigit then
      let p := takeDigits rest
      (c :: p.fst, p.snd)
    else ([], c :: rest)

/-- Parse a JSON number, keeping its lexeme. -/
def parseJNumber (cs : List Char) : Option (String × List Char) :=
  let p0 :=
    match cs with
    | '-' :: r => ("-", r)
    | _ => ("", cs)
  let p1 := takeDigits p0.snd
  if p1.fst.isEmpty then none
  else
    let step2 : Option (String × List Char) :=
      match p1.snd with
      | '.' :: r =>
        let p2 := takeDigits r
        if p2.fst.isEmpty then none
        else some ("." ++ String.mk p2.fst, p2.snd)
      | _ => some ("", p1.snd)
    match step2 with
    | none => none
    | some (fracPart, cs3) =>
      let step3 : Option (String × List Char) :=
        match cs3 with
        | e :: r =>
          if e == 'e' || e == 'E' then
            let p3 :=
              match r with
              | '+' :: r3 => ("+", r3)
              | '-' :: r3 => ("-", r3)
              | _ => ("", r)
            let p4 := takeDigits p3.snd
            if p4.fst.isEmpty then none
            else some (String.mk [e] ++ p3.fst ++ String.mk p4.fst, p4.snd)
          else some ("", cs3)
        | [] => some ("", cs3)
      match step3 with
      | none => none
      | some (expPart, cs4) =>
        some (p0.fst ++ String.mk p1.fst ++ fracPart ++ expPart, cs4)

/-- Insert a key/value pair as Python dict construction does: a repeated
key keeps its original position and takes the new value. -/
def dictPush (acc : List (String × PyVal)) (k : String) (v : PyVal) :
    List (String × PyVal) :=
  if acc.any (fun kv => kv.fst == k) then
    acc.map (fun kv => if kv.fst == k then (k, v) else kv)
  else acc ++ [(k, v)]

mutual

/-- Parse one JSON value (fuel-bounded recursive descent, modeling
json.loads). -/
def parseJValue (fuel : Nat) (cs : List Char) : Option (PyVal × List Char) :=
  match fuel with
  | 0 => none
  | fuel + 1 =>
    match skipWs cs with
    | 't' :: 'r' :: 'u' :: 'e' :: r => some (PyVal.bool true, r)
    | 'f' :: 'a' :: 'l' :: 's' :: 'e' :: r => some (PyVal.bool false, r)
    | 'n' :: 'u' :: 'l' :: 'l' :: r => some (PyVal.null, r)
    | '"' :: r =>
      match parseJString (r.length + 1) [] r with
      | some (s, r2) => some (PyVal.str s, r2)
      | none => none
    | '[' :: r => parseJArray fuel [] true r
    | '\x7b' :: r => parseJObject fuel [] true r
    | cs1 =>
      match parseJNumber cs1 with
      | some (lex, r) => some (PyVal.num lex, r)
      | none => none

/-- Parse array elements, positioned after the opening bracket or after a
comma. -/
def parseJArray (fuel : Nat) (acc : List PyVal) (first : Bool)
    (cs : List Char) : Option (PyVal × List Char) :=
  match fuel with
  | 0 => none
  | fuel + 1 =>
    match first, skipWs cs with
    | true, ']' :: r => some (PyVal.list [], r)
    | _, cs1 =>
      match parseJValue fuel cs1 with
      | none => none
      | some (v, r) =>
        match skipWs r with
        | ',' :: r2 => parseJArray fuel (acc ++ [v]) false r2
        | ']' :: r2 => some (PyVal.list (acc ++ [v]), r2)
        | _ => none

/-- Parse object members, positioned after the opening brace or after a
comma. -/
def parseJObject (fuel : Nat) (acc : List (String × PyVal)) (first : Bool)
    (cs : List Char) : Option (PyVal × List Char) :=
  match fuel with
  | 0 => none
  | fuel + 1 =>
    match first, skipWs cs with
    | true, '\x7d' :: r => some (PyVal.dict acc, r)
    | _, cs1 =>
      match cs1 with
      | '"' :: r =>
        match parseJString (r.length + 1) [] r with
        | none => none
        | some (k, r2) =>
          match skipWs r2 with
          | ':' :: r3 =>
            match parseJValue fuel r3 with
            | none => none
            | some (v, r4) =>
              match skipWs r4 with
              | ',' :: r5 => parseJObject fuel (dictPush acc k v) false r5
              | '\x7d' :: r5 => some (PyVal.dict (dictPush acc k v), r5)
              | _ => none
          | _ => none
      | _ => none

end

/-- Model of json.loads: parse one value and require only trailing
whitespace after it. -/
def json_loads (s : String) : Option PyVal :=
  match parseJValue (s.length + 1) s.toList with
  | none => none
  | some (v, rest) => if (skipWs rest).isEmpty then some v else none

/-- Issue record (shared/models.py Issue): timestamps are modeled as Nat
and the nullable deleted_at as Option Nat; program_id is the foreign key
to Program.id. -/
structure Issue where
  id : String
  program_id : Option String
  title : String
  description : String
  status : String
  priority : String
  source : String
  root_thread_id : String
  deleted_at : Option Nat

/-- Event record (shared/models.py Event). -/
structure Event where
  id : String
  issue_id : String
  source : String
  external_id : Option String
  author : String
  body : String
  event_type : String
  ai_metadata : PyVal
  attachments : List String
  created_at : Nat
  deleted_at : Option Nat

/-- AIJob record (shared/models.py AIJob). -/
structure AIJob where
  id : String
  event_id : String
  job_type : String
  status : String
  output : PyVal
  completed_at : Option Nat
  deleted_at : Option Nat

/-- Program record (shared/models.py Program). -/
structure Program where
  id : String
  program_id : String
  name : String
  description : Option String
  owners : List String
  channels : List String
  deleted_at : Option Nat

/-- State visible to the permission resolver: the static admin allow-list
(SLACK_ADMIN_USERS), the Program store, the Issue store, and the two
process-local owner-set maps from slack_bot/db.py. -/
structure BotState where
  admin_users : List String
  programs : List Program
  issues : List Issue
  issue_owners : List (String × List String)
  channel_owners : List (String × List String)

/-- Membership of a possibly-absent user id in a list of user ids; a
missing user (None) is never a member. -/
def optMem (u : Option String) (xs : List String) : Bool :=
  match u with
  | some s => xs.contains s
  | none => false

/-- Truthiness of an optional string (Python: None and the empty string
are falsy). -/
def strTruthy (o : Option String) : Bool :=
  match o with
  | some s => s != ""
  | none => false

/-- Owner set recorded for a key in an owner-set map, defaulting to the
empty set (dict.get(key, set())). -/
def ownersOf (m : List (String × List String)) (k : String) : List String :=
  match m.find? (fun kv => kv.fst == k) with
  | some kv => kv.snd
  | none => []

/-- is_channel_owner from slack_bot/db.py. -/
def is_channel_owner (st : BotState) (channel_id user_id : String) : Bool :=
  (ownersOf st.channel_owners channel_id).contains user_id

/-- is_issue_owner from slack_bot/db.py. -/
def is_issue_owner (st : BotState) (issue_id user_id : String) : Bool :=
  (ownersOf st.issue_owners issue_id).contains user_id

/-- get_program_by_channel from slack_bot/db.py: first non-deleted program
whose channel list contains the channel. -/
def get_program_by_channel (st : BotState) (channel_id : String) :
    Option Program :=
  st.programs.find? (fun p => p.channels.contains channel_id && p.deleted_at.isNone)

/-- Lookup of an issue by primary id, with no deleted_at filter, as in
get_issue_by_id / get_issue_with_program from slack_bot/db.py. -/
def get_issue_by_id (st : BotState) (issue_id : String) : Option Issue :=
  st.issues.find? (fun i => i.id == issue_id)

/-- Program joined to an issue through its program_id foreign key (the
SQLAlchemy relationship applies no deleted_at filter). -/
def issue_program (st : BotState) (issue : Issue) : Option Program :=
  match issue.program_id with
  | none => none
  | some pid => st.programs.find? (fun p => p.id == pid)

/-- Tier-2a test of get_user_permission: the channel is truthy, a program
is bound to it, and the user is among its owners. -/
def channel_program_owner (st : BotState) (user_id channel_id : Option String) :
    Bool :=
  match channel_id with
  | some ch =>
    if ch == "" then false
    else
      match get_program_by_channel st ch with
      | some p => optMem user_id p.owners
      | none => false
  | none => false

/-- Tier-2b test of get_user_permission: the issue id is truthy, the issue
exists, it is linked to a program, and the user is among that program's
owners (via get_issue_with_program). -/
def issue_program_owner (st : BotState) (user_id issue_id : Option String) :
    Bool :=
  match issue_id with
  | some iid =>
    if iid == "" then false
    else
      match get_issue_by_id st iid with
      | some issue =>
        match issue_program st issue with
        | some p => optMem user_id p.owners
        | none => false
      | none => false
  | none => false

/-- Tier-3a test: the channel is truthy and the user is a recorded channel
owner. -/
def channel_owner_tier (st : BotState) (user_id channel_id : Option String) :
    Bool :=
  match channel_id, user_id with
  | some ch, some u => if ch == "" then false else is_channel_owner st ch u
  | _, _ => false

/-- Tier-3b test: the issue id is truthy and the user is a recorded issue
owner. -/
def issue_owner_tier (st : BotState) (user_id issue_id : Option String) :
    Bool :=
  match issue_id, user_id with
  | some iid, some u => if iid == "" then false else is_issue_owner st iid u
  | _, _ => false

/-- Values of the Permission enum from slack_bot/permissions.py. -/
inductive Permission where
  | USER
  | OWNER
  | PROGRAM_OWNER
  | ADMIN
deriving DecidableEq

/-- String value of a Permission member (Permission.value). -/
def permissionValue : Permission → String
  | .USER => "user"
  | .OWNER => "owner"
  | .PROGRAM_OWNER => "program_owner"
  | .ADMIN => "admin"

/-- get_user_permission from slack_bot/permissions.py: the four tiers
checked in order: admin allow-list, program ownership (by channel, then by
the issue's program), recorded channel/issue ownership, default USER. The
user id may be absent (the guard wrapper passes event.get("user")). -/
def get_user_permission (st : BotState)
    (user_id channel_id issue_id : Option String) : Permission :=
  if optMem user_id st.admin_users then Permission.ADMIN
  else if channel_program_owner st user_id channel_id then Permission.PROGRAM_OWNER
  else if issue_program_owner st user_id issue_id then Permission.PROGRAM_OWNER
  else if channel_owner_tier st user_id channel_id then Permission.OWNER
  else if issue_owner_tier st user_id issue_id then Permission.OWNER
  else Permission.USER

/-- Numeric rank of each permission level (permission_hierarchy dict in
has_permission). -/
def permission_hierarchy : Permission → Nat
  | .USER => 0
  | .OWNER => 1
  | .PROGRAM_OWNER => 2
  | .ADMIN => 3

/-- has_permission from slack_bot/permissions.py: the resolved level must
rank at least as high as the required one. -/
def has_permission (st : BotState) (user_id : Option String)
    (required : Permission) (channel_id issue_id : Option String) : Bool :=
  decide (permission_hierarchy required ≤
    permission_hierarchy (get_user_permission st user_id channel_id issue_id))

/-- Slack event fields consulted by the guard wrapper (event.get on a
dict; absent keys give None). -/
structure SlackEvent where
  user : Option String
  channel : Option String
  thread_ts : Option String
  ts : Option String

/-- Message sent through the say callback. -/
structure SayMsg where
  text : String
  thread_ts : Option String

/-- Outcome of running a guarded handler: the messages emitted via say and
the result of the wrapped function when it was invoked. -/
structure GuardOutcome (α : Type) where
  messages : List SayMsg
  result : Option α

/-- Python `a or b` on optional strings (an empty string is falsy). -/
def pyOrStr (a b : Option String) : Option String :=
  match a with
  | some s => if s != "" then some s else b
  | none => b

/-- require_permission from slack_bot/permissions.py: the wrapper reads
user and channel from the event, checks has_permission with no issue id,
and either emits a denial message without calling the wrapped function or
invokes it. -/
def require_permission (st : BotState) (required : Permission)
    (func : SlackEvent → α) (event : SlackEvent) : GuardOutcome α :=
  let user_id := event.user
  let channel_id := event.channel
  if !(has_permission st user_id required channel_id none) then
    let txt := "❌ You need " ++ permissionValue required ++
      " permission to perform this action."
    { messages := [{ text := txt, thread_ts := pyOrStr event.thread_ts event.ts }],
      result := none }
  else
    { messages := [], result := some (func event) }

/-- Composite-key branch of get_issue_by_thread_id from slack_bot/db.py:
first non-deleted issue whose root_thread_id equals channel:thread. -/
def find_issue_composite (issues : List Issue) (channel_id thread_ts : String) :
    Option Issue :=
  issues.find? (fun i =>
    i.root_thread_id == channel_id ++ ":" ++ thread_ts && i.deleted_at.isNone)

/-- Legacy branch of get_issue_by_thread_id: first non-deleted issue whose
root_thread_id equals the bare thread id or ends with ":thread" (the SQL
LIKE pattern). -/
def find_issue_both_formats (issues : List Issue) (thread_ts : String) :
    Option Issue :=
  issues.find? (fun i =>
    (i.root_thread_id == thread_ts ||
      likeEndsWith i.root_thread_id (":" ++ thread_ts)) && i.deleted_at.isNone)

/-- get_issue_by_thread_id from slack_bot/db.py: with a truthy channel id
the composite key is used; otherwise both historical formats are tried. -/
def get_issue_by_thread_id (issues : List Issue) (thread_ts : String)
    (channel_id : Option String) : Option Issue :=
  match channel_id with
  | some ch =>
    if ch == "" then find_issue_both_formats issues thread_ts
    else find_issue_composite issues ch thread_ts
  | none => find_issue_both_formats issues thread_ts

/-- Bullet block built inside update_issue_from_ai for key_points or
action_items: the header line followed by one bullet line per item. -/
def bulletBlock (header : String) (v : PyVal) : List String :=
  header :: (pyIter v).map (fun p => "• " ++ pyStr p)

/-- First block of update_issue_from_ai: a truthy main_issue is sliced to
its first 200 characters and stored as the title. The title column stores
text, so a non-string slice is rendered via str(); the modeled flows only
carry strings there. -/
def apply_main_issue (ai_summary : List (String × PyVal)) (issue : Issue) :
    Issue :=
  match pyGet ai_summary "main_issue" with
  | some v =>
    if truthy v then { issue with title := pyStr (pySlice 200 v) }
    else issue
  | none => issue

/-- Second block of update_issue_from_ai: a truthy summary rebuilds the
description from the summary text plus optional Key Points and Action
Items bullet blocks, joined with a newline. -/
def apply_summary (ai_summary : List (String × PyVal)) (issue : Issue) :
    Issue :=
  match pyGet ai_summary "summary" with
  | some sv =>
    if truthy sv then
      let parts0 := [pyStr sv]
      let parts1 :=
        match pyGet ai_summary "key_points" with
        | some kp =>
          if truthy kp then parts0 ++ bulletBlock "\n\nKey Points:" kp
          else parts0
        | none => parts0
      let parts2 :=
        match pyGet ai_summary "action_items" with
        | some ai =>
          if truthy ai then parts1 ++ bulletBlock "\n\nAction Items:" ai
          else parts1
        | none => parts1
      { issue with description := String.intercalate "\n" parts2 }
    else issue
  | none => issue

/-- update_issue_from_ai from slack_bot/db.py: finds the non-deleted issue
by id, applies the main_issue title block and then the summary description
block, and returns the committed record; returns None when the issue is
absent. -/
def update_issue_from_ai (issues : List Issue) (issue_id : String)
    (ai_summary : List (String × PyVal)) : Option Issue :=
  match issues.find? (fun i => i.id == issue_id && i.deleted_at.isNone) with
  | none => none
  | some issue =>
    some (apply_summary ai_summary (apply_main_issue ai_summary issue))

/-- Record store visible to the AI job pipeline. -/
structure AiDB where
  issues : List Issue
  events : List Event
  jobs : List AIJob

/-- Insertion into the sorted-by-created_at event list. -/
def insertByCreated (e : Event) : List Event → List Event
  | [] => [e]
  | x :: xs =>
    if e.created_at < x.created_at then e :: x :: xs
    else x :: insertByCreated e xs

/-- Sort events by creation time (order_by(Event.created_at)). -/
def sortByCreated : List Event → List Event
  | [] => []
  | x :: xs => insertByCreated x (sortByCreated xs)

/-- get_issue_events from slack_bot/db.py: non-deleted events of the
issue, ordered by creation time. -/
def get_issue_events (db : AiDB) (issue_id : String) : List Event :=
  sortByCreated (db.events.filter (fun e =>
    e.issue_id == issue_id && e.deleted_at.isNone))

/-- Outcome of the downstream text-generation call as observed inside the
try block of summarize_thread: either an exception raised by call_ai_api
or response extraction (missing AI_API_KEY, timeout, non-2xx status,
network error, malformed response envelope), carrying the exception
message, or the successfully extracted content string
response.choices[0].message.content. -/
inductive AiCallResult where
  | exn (msg : String)
  | ok (content : String)

/-- summarize_thread from ai_handler.py, with the downstream call modeled
as a function from the user-message content to its observed outcome: an
empty event list short-circuits to an error dict; an exception from the
call is caught and returned as an error dict; a response that fails
json.loads is wrapped as the fallback dict. -/
def summarize_thread (api : String → AiCallResult) (db : AiDB)
    (issue_id : String) : PyVal :=
  let events := get_issue_events db issue_id
  if events.isEmpty then
    PyVal.dict [("error", PyVal.str "No messages found for this issue")]
  else
    let thread_text := String.intercalate "\n\n"
      ((events.filter (fun e => e.body != "")).map (fun e =>
        "[" ++ e.author ++ "]: " ++ e.body))
    match api ("Analyze this support thread:\n\n" ++ thread_text) with
    | .exn msg => PyVal.dict [("error", PyVal.str msg)]
    | .ok content =>
      match json_loads content with
      | some v => v
      | none =>
        PyVal.dict [("summary", PyVal.str content),
                    ("raw_response", PyVal.str content)]

/-- Replace a job in the store by id (db.add of a mutated record followed
by commit). -/
def set_job (db : AiDB) (job : AIJob) : AiDB :=
  { db with jobs := db.jobs.map (fun j => if j.id == job.id then job else j) }

/-- Replace an event in the store by id. -/
def set_event (db : AiDB) (e : Event) : AiDB :=
  { db with events := db.events.map (fun x => if x.id == e.id then e else x) }

/-- process_ai_job from ai_handler.py: mark the job processing, resolve
the anchor event and owning issue (failing the job when either is
missing), run summarize_thread for full_extraction jobs and record the
summary on the job and the event metadata, and fail any other job kind.
Returns the final store, the final job record and the returned output.
All exception paths of the downstream call are absorbed inside
summarize_thread, so the function is total. -/
def process_ai_job (api : String → AiCallResult) (now : Nat) (db : AiDB)
    (job : AIJob) : AiDB × AIJob × PyVal :=
  let job0 := { job with status := "processing" }
  let db0 := set_job db job0
  match db0.events.find? (fun e => e.id == job0.event_id) with
  | none =>
    let out := PyVal.dict [("error", PyVal.str "Event not found")]
    let job1 := { job0 with status := "failed", output := out }
    (set_job db0 job1, job1, job1.output)
  | some event =>
    match db0.issues.find? (fun i => i.id == event.issue_id) with
    | none =>
      let out := PyVal.dict [("error", PyVal.str "Issue not found")]
      let job1 := { job0 with status := "failed", output := out }
      (set_job db0 job1, job1, job1.output)
    | some issue =>
      if job0.job_type == "full_extraction" then
        let summary := summarize_thread api db0 issue.id
        let job1 :=
          { job0 with status := "completed", output := summary, completed_at := some now }
        let event1 := { event with ai_metadata := summary }
        let db1 := set_event db0 event1
        (set_job db1 job1, job1, job1.output)
      else
        let out := PyVal.dict [("error", PyVal.str ("Unknown job type: " ++ job0.job_type))]
        let job1 := { job0 with status := "failed", output := out }
        (set_job db0 job1, job1, job1.output)

/-- C4: permission resolution evaluates the tiers in priority order with
first match winning: a user on the static admin allow-list resolves to
ADMIN regardless of any program or owner-set memberships, and a non-admin
user who owns the relevant program (the one bound to the channel or the
one linked to the issue) and is also a recorded channel or issue owner
resolves to PROGRAM_OWNER. -/
theorem c4_permission_priority (st : BotState) (u : String)
    (channel_id issue_id : Option String) :
    (u ∈ st.admin_users →
      get_user_permission st (some u) channel_id issue_id = Permission.ADMIN)
    ∧ (u ∉ st.admin_users →
        (channel_program_owner st (some u) channel_id = true ∨
          issue_program_owner st (some u) issue_id = true) →
        (channel_owner_tier st (some u) channel_id = true ∨
          issue_owner_tier st (some u) issue_id = true) →
        get_user_permission st (some u) channel_id issue_id =
          Permission.PROGRAM_OWNER) := by
  constructor
  · intro h
    unfold get_user_permission
    simp [optMem, h]
  · intro h hprog _hown
    unfold get_user_permission
    have hadm : optMem (some u) st.admin_users = false := by
      simp [optMem, h]
    rw [hadm]
    rcases hcp : channel_program_owner st (some u) channel_id with _ | _
    · rcases hprog with hl | hr
      · rw [hcp] at hl
        exact absurd hl (by simp)
      · simp [hr]
    · simp

/-- Concrete program record used by the permission witnesses. -/
def wProgram : Program :=
  { id := "p1"
    program_id := "prog"
    name := "P"
    description := none
    owners := ["u1", "u2"]
    channels := ["C1"]
    deleted_at := none }

/-- Concrete resolver state used by the permission witnesses: u1 is an
admin who also owns the program, the channel and the issue; u2 owns the
program and is a recorded channel and issue owner without being an
admin. -/
def wState : BotState :=
  { admin_users := ["u1"]
    programs := [wProgram]
    issues := []
    issue_owners := [("i1", ["u1", "u2"])]
    channel_owners := [("C1", ["u1", "u2"])] }

/-- Witness for c4_permission_priority at the concrete state wState. -/
theorem c4_witness :
    ("u1" ∈ wState.admin_users
      ∧ get_user_permission wState (some "u1") (some "C1") (some "i1") =
          Permission.ADMIN)
    ∧ ("u2" ∉ wState.admin_users
      ∧ get_user_permission wState (some "u2") (some "C1") (some "i1") =
          Permission.PROGRAM_OWNER) :=
  ⟨⟨by decide,
    (c4_permission_priority wState "u1" (some "C1") (some "i1")).1 (by decide)⟩,
   ⟨by decide,
    (c4_permission_priority wState "u2" (some "C1") (some "i1")).2 (by decide)
      (Or.inl (by rfl)) (Or.inl (by rfl))⟩⟩

/-- C5: has_permission is monotone in the required level: whenever it
grants a level it also grants every lower level in the total order
USER < OWNER < PROGRAM_OWNER < ADMIN. -/
theorem c5_has_permission_monotone (st : BotState)
    (u channel_id issue_id : Option String) (L Lp : Permission)
    (hord : permission_hierarchy Lp ≤ permission_hierarchy L)
    (h : has_permission st u L channel_id issue_id = true) :
    has_permission st u Lp channel_id issue_id = true := by
  unfold has_permission at h ⊢
  exact decide_eq_true (le_trans hord (of_decide_eq_true h))

/-- Witness for c5_has_permission_monotone: a program owner granted
PROGRAM_OWNER is also granted OWNER. -/
theorem c5_witness :
    permission_hierarchy Permission.OWNER ≤
      permission_hierarchy Permission.PROGRAM_OWNER
    ∧ has_permission wState (some "u2") Permission.PROGRAM_OWNER
        (some "C1") none = true
    ∧ has_permission wState (some "u2") Permission.OWNER
        (some "C1") none = true :=
  ⟨by decide, by rfl,
   c5_has_permission_monotone wState (some "u2") (some "C1") none
     Permission.PROGRAM_OWNER Permission.OWNER (by decide) (by rfl)⟩

/-- C6: a successful registry resolution never returns a soft-deleted
issue; with a channel supplied the match is exactly the composite
channel:thread key, and with only a bare legacy thread key the match is
the bare key or the colon-thread suffix. -/
theorem c6_registry_resolve (issues : List Issue) (thread_ts : String)
    (channel_id : Option String) (i : Issue)
    (h : get_issue_by_thread_id issues thread_ts channel_id = some i) :
    i.deleted_at = none
    ∧ (∀ ch, channel_id = some ch → ch ≠ "" →
        i.root_thread_id = ch ++ ":" ++ thread_ts)
    ∧ (channel_id = none →
        i.root_thread_id = thread_ts ∨
          likeEndsWith i.root_thread_id (":" ++ thread_ts) = true) := by
  unfold get_issue_by_thread_id at h
  cases channel_id with
  | none =>
    unfold find_issue_both_formats at h
    have hp := List.find?_some h
    rw [Bool.and_eq_true] at hp
    have hor := hp.1
    simp only [Bool.or_eq_true, beq_iff_eq] at hor
    refine ⟨Option.isNone_iff_eq_none.mp hp.2, ?_, fun _ => hor⟩
    intro ch hc
    exact absurd hc (by simp)
  | some ch =>
    dsimp only at h
    cases hemp : (ch == "") with
    | true =>
      rw [hemp, if_pos rfl] at h
      unfold find_issue_both_formats at h
      have hp := List.find?_some h
      rw [Bool.and_eq_true] at hp
      refine ⟨Option.isNone_iff_eq_none.mp hp.2, ?_, ?_⟩
      · intro ch2 hc2 hne
        rw [← Option.some.inj hc2] at hne
        exact absurd (eq_of_beq hemp) hne
      · intro hcn
        exact absurd hcn (by simp)
    | false =>
      rw [hemp, if_neg (by simp)] at h
      unfold find_issue_composite at h
      have hp := List.find?_some h
      rw [Bool.and_eq_true] at hp
      refine ⟨Option.isNone_iff_eq_none.mp hp.2, ?_, ?_⟩
      · intro ch2 hc2 _
        rw [← Option.some.inj hc2]
        exact eq_of_beq hp.1
      · intro hcn
        exact absurd hcn (by simp)

/-- Concrete issue used by the registry witness. -/
def wIssue : Issue :=
  { id := "i1"
    program_id := none
    title := "t"
    description := "d"
    status := "unverified"
    priority := "low"
    source := "slack"
    root_thread_id := "C1:111.222"
    deleted_at := none }

/-- Witness for c6_registry_resolve at a concrete store, under the
composite lookup. -/
theorem c6_witness :
    get_issue_by_thread_id [wIssue] "111.222" (some "C1") = some wIssue
    ∧ (wIssue.deleted_at = none
      ∧ (∀ ch, (some "C1" : Option String) = some ch → ch ≠ "" →
          wIssue.root_thread_id = ch ++ ":" ++ "111.222")
      ∧ ((some "C1" : Option String) = none →
          wIssue.root_thread_id = "111.222" ∨
            likeEndsWith wIssue.root_thread_id (":" ++ "111.222") = true)) :=
  ⟨by rfl, c6_registry_resolve [wIssue] "111.222" (some "C1") wIssue (by rfl)⟩

/-- Frame of the main_issue block: every field except the title is
untouched. -/
theorem apply_main_issue_frame (ai_summary : List (String × PyVal))
    (issue : Issue) :
    (apply_main_issue ai_summary issue).id = issue.id
    ∧ (apply_main_issue ai_summary issue).program_id = issue.program_id
    ∧ (apply_main_issue ai_summary issue).description = issue.description
    ∧ (apply_main_issue ai_summary issue).status = issue.status
    ∧ (apply_main_issue ai_summary issue).priority = issue.priority
    ∧ (apply_main_issue ai_summary issue).source = issue.source
    ∧ (apply_main_issue ai_summary issue).root_thread_id = issue.root_thread_id
    ∧ (apply_main_issue ai_summary issue).deleted_at = issue.deleted_at := by
  unfold apply_main_issue
  cases pyGet ai_summary "main_issue" with
  | none => simp
  | some v => cases htr : truthy v <;> simp [htr]

/-- Without a truthy main_issue the title is also untouched. -/
theorem apply_main_issue_title_frame (ai_summary : List (String × PyVal))
    (issue : Issue)
    (h : optTruthy (pyGet ai_summary "main_issue") = false) :
    (apply_main_issue ai_summary issue).title = issue.title := by
  unfold apply_main_issue
  cases hg : pyGet ai_summary "main_issue" with
  | none => rfl
  | some v =>
    rw [hg] at h
    have hv : truthy v = false := h
    simp [hv]

/-- Frame of the summary block: every field except the description is
untouched. -/
theorem apply_summary_frame (ai_summary : List (String × PyVal))
    (issue : Issue) :
    (apply_summary ai_summary issue).id = issue.id
    ∧ (apply_summary ai_summary issue).program_id = issue.program_id
    ∧ (apply_summary ai_summary issue).title = issue.title
    ∧ (apply_summary ai_summary issue).status = issue.status
    ∧ (apply_summary ai_summary issue).priority = issue.priority
    ∧ (apply_summary ai_summary issue).source = issue.source
    ∧ (apply_summary ai_summary issue).root_thread_id = issue.root_thread_id
    ∧ (apply_summary ai_summary issue).deleted_at = issue.deleted_at := by
  unfold apply_summary
  cases pyGet ai_summary "summary" with
  | none => simp
  | some v => cases htr : truthy v <;> simp [htr]

/-- Without a truthy summary the description is also untouched, even when
key_points or action_items are present. -/
theorem apply_summary_desc_frame (ai_summary : List (String × PyVal))
    (issue : Issue)
    (h : optTruthy (pyGet ai_summary "summary") = false) :
    (apply_summary ai_summary issue).description = issue.description := by
  unfold apply_summary
  cases hg : pyGet ai_summary "summary" with
  | none => rfl
  | some v =>
    rw [hg] at h
    have hv : truthy v = false := h
    simp [hv]

/-- C9: reconciliation is framed: for an existing non-deleted issue, a
summary with no truthy main_issue leaves the title unchanged, one with no
truthy summary leaves the description unchanged even when key_points or
action_items are present, and the id, program reference, status, priority,
source, thread key and soft-delete marker are unchanged in every case. -/
theorem c9_update_frame (issues : List Issue) (issue_id : String)
    (ai_summary : List (String × PyVal)) (issue issue2 : Issue)
    (hfind : issues.find? (fun i => i.id == issue_id && i.deleted_at.isNone) =
      some issue)
    (hres : update_issue_from_ai issues issue_id ai_summary = some issue2) :
    (optTruthy (pyGet ai_summary "main_issue") = false →
      issue2.title = issue.title)
    ∧ (optTruthy (pyGet ai_summary "summary") = false →
      issue2.description = issue.description)
    ∧ issue2.id = issue.id
    ∧ issue2.program_id = issue.program_id
    ∧ issue2.status = issue.status
    ∧ issue2.priority = issue.priority
    ∧ issue2.source = issue.source
    ∧ issue2.root_thread_id = issue.root_thread_id
    ∧ issue2.deleted_at = issue.deleted_at := by
  unfold update_issue_from_ai at hres
  rw [hfind] at hres
  dsimp only at hres
  have he : issue2 = apply_summary ai_summary (apply_main_issue ai_summary issue) :=
    (Option.some.inj hres).symm
  subst he
  have hm := apply_main_issue_frame ai_summary issue
  have hs := apply_summary_frame ai_summary (apply_main_issue ai_summary issue)
  refine ⟨?_, ?_, ?_, ?_, ?_, ?_, ?_, ?_, ?_⟩
  · intro h
    rw [hs.2.2.1]
    exact apply_main_issue_title_frame ai_summary issue h
  · intro h
    rw [apply_summary_desc_frame ai_summary _ h]
    exact hm.2.2.1
  · rw [hs.1]; exact hm.1
  · rw [hs.2.1]; exact hm.2.1
  · rw [hs.2.2.2.1]; exact hm.2.2.2.1
  · rw [hs.2.2.2.2.1]; exact hm.2.2.2.2.1
  · rw [hs.2.2.2.2.2.1]; exact hm.2.2.2.2.2.1
  · rw [hs.2.2.2.2.2.2.1]; exact hm.2.2.2.2.2.2.1
  · rw [hs.2.2.2.2.2.2.2]; exact hm.2.2.2.2.2.2.2

/-- Concrete issue used by the reconciliation claims. -/
def c9_issue : Issue :=
  { id := "i1"
    program_id := some "p1"
    title := "old title"
    description := "old description"
    status := "unverified"
    priority := "low"
    source := "slack"
    root_thread_id := "C1:111.222"
    deleted_at := none }

/-- Witness for c9_update_frame: a summary carrying only key_points and
action_items changes neither title nor description nor any other field. -/
theorem c9_witness :
    ([c9_issue].find? (fun i => i.id == "i1" && i.deleted_at.isNone) =
      some c9_issue)
    ∧ (update_issue_from_ai [c9_issue] "i1"
        [("key_points", PyVal.list [PyVal.str "a"]),
         ("action_items", PyVal.list [PyVal.str "b"])] = some c9_issue)
    ∧ (optTruthy (pyGet
        [("key_points", PyVal.list [PyVal.str "a"]),
         ("action_items", PyVal.list [PyVal.str "b"])] "main_issue") = false →
        c9_issue.title = c9_issue.title) :=
  ⟨rfl, rfl,
   (c9_update_frame [c9_issue] "i1"
     [("key_points", PyVal.list [PyVal.str "a"]),
      ("action_items", PyVal.list [PyVal.str "b"])] c9_issue c9_issue
     rfl rfl).1⟩

/-- Summary payload of the C3 claim: a 250-character main_issue, summary
"S" and key_points ["a", "b"]. -/
def c3_summary : List (String × PyVal) :=
  [("main_issue", PyVal.str (String.mk (List.replicate 250 'X'))),
   ("summary", PyVal.str "S"),
   ("key_points", PyVal.list [PyVal.str "a", PyVal.str "b"])]

/-- C3 counterexample: reconciling from the C3 summary does not produce
the claimed description with two newlines before the Key Points header;
the join inserts a third one. -/
theorem c3_counterexample :
    (update_issue_from_ai [c9_issue] "i1" c3_summary).map Issue.description ≠
      some "S\n\nKey Points:\n• a\n• b" := by
  intro h
  have : ("S\n\n\nKey Points:\n• a\n• b" : String) = "S\n\nKey Points:\n• a\n• b" :=
    Option.some.inj h
  exact absurd this (by decide)

/-- C3 amended: reconciling an existing non-deleted issue from the C3
summary sets the title to the first 200 characters of the 250-character
main_issue and sets the description to the summary text followed by one
newline, the blank-line-prefixed Key Points header and the bullet lines,
i.e. three newlines stand between "S" and "Key Points:". -/
theorem c3_reconcile_amended (issues : List Issue) (issue_id : String)
    (issue : Issue)
    (hfind : issues.find? (fun i => i.id == issue_id && i.deleted_at.isNone) =
      some issue) :
    update_issue_from_ai issues issue_id c3_summary =
      some { issue with
              title := String.mk (List.replicate 200 'X')
              description := "S\n\n\nKey Points:\n• a\n• b" } := by
  unfold update_issue_from_ai
  rw [hfind]
  rfl

/-- Witness for c3_reconcile_amended at a concrete one-issue store. -/
theorem c3_witness :
    ([c9_issue].find? (fun i => i.id == "i1" && i.deleted_at.isNone) =
      some c9_issue)
    ∧ update_issue_from_ai [c9_issue] "i1" c3_summary =
        some { c9_issue with
                title := String.mk (List.replicate 200 'X')
                description := "S\n\n\nKey Points:\n• a\n• b" } :=
  ⟨rfl, c3_reconcile_amended [c9_issue] "i1" c9_issue rfl⟩

/-- Replacing a job record leaves the event store unchanged. -/
theorem set_job_events (db : AiDB) (j : AIJob) :
    (set_job db j).events = db.events :=
  rfl

/-- Replacing a job record leaves the issue store unchanged. -/
theorem set_job_issues (db : AiDB) (j : AIJob) :
    (set_job db j).issues = db.issues :=
  rfl

/-- Replacing a job record leaves the event store, and hence the gathered
issue events, unchanged. -/
theorem get_issue_events_set_job (db : AiDB) (j : AIJob) (issue_id : String) :
    get_issue_events (set_job db j) issue_id = get_issue_events db issue_id :=
  rfl

/-- C7: a job whose anchor event does not exist terminates with status
failed and the Event-not-found payload as both its stored output and the
returned value; the embedding is a total function, so no exception crosses
the job boundary. -/
theorem c7_event_not_found (api : String → AiCallResult) (now : Nat)
    (db : AiDB) (job : AIJob)
    (h : db.events.find? (fun e => e.id == job.event_id) = none) :
    (process_ai_job api now db job).2.1.status = "failed"
    ∧ (process_ai_job api now db job).2.1.output =
        PyVal.dict [("error", PyVal.str "Event not found")]
    ∧ (process_ai_job api now db job).2.2 =
        PyVal.dict [("error", PyVal.str "Event not found")] := by
  unfold process_ai_job
  dsimp only [set_job]
  rw [h]
  exact ⟨rfl, rfl, rfl⟩

/-- Concrete records for the event-not-found witness. -/
def c7_job : AIJob :=
  { id := "j1"
    event_id := "missing"
    job_type := "full_extraction"
    status := "pending"
    output := PyVal.dict []
    completed_at := none
    deleted_at := none }

/-- Store with no events at all, so the anchor of c7_job is absent. -/
def c7_db : AiDB :=
  { issues := [], events := [], jobs := [c7_job] }

/-- Witness for c7_event_not_found at the empty event store. -/
theorem c7_witness :
    c7_db.events.find? (fun e => e.id == c7_job.event_id) = none
    ∧ (process_ai_job (fun _ => AiCallResult.ok "x") 0 c7_db c7_job).2.1.status =
        "failed" :=
  ⟨rfl,
   (c7_event_not_found (fun _ => AiCallResult.ok "x") 0 c7_db c7_job rfl).1⟩

/-- C1 (amended): when the anchor event and owning issue exist, the issue
has at least one stored event, and the downstream text-generation call
raises an exception, the exception is caught and never propagates (the
embedding is total) and the error message is recorded as the output
payload — but the job finishes with status completed, not failed: the
exception is absorbed inside summarize_thread and process_ai_job treats
the resulting error dict as a successful summary. -/
theorem c1_completed_on_downstream_exception (now : Nat) (db : AiDB)
    (job : AIJob) (ev : Event) (iss : Issue) (msg : String)
    (h1 : db.events.find? (fun e => e.id == job.event_id) = some ev)
    (h2 : db.issues.find? (fun i => i.id == ev.issue_id) = some iss)
    (h3 : job.job_type = "full_extraction")
    (h4 : (get_issue_events db iss.id).isEmpty = false) :
    (process_ai_job (fun _ => AiCallResult.exn msg) now db job).2.1.status =
      "completed"
    ∧ (process_ai_job (fun _ => AiCallResult.exn msg) now db job).2.1.output =
        PyVal.dict [("error", PyVal.str msg)] := by
  unfold process_ai_job
  dsimp only [set_job_events, set_job_issues]
  rw [h1]
  dsimp only
  rw [h2]
  dsimp only
  rw [h3]
  rw [if_pos (by rfl)]
  unfold summarize_thread
  dsimp only
  rw [get_issue_events_set_job, h4]
  rw [if_neg (by simp)]
  exact ⟨rfl, rfl⟩

/-- Concrete issue anchoring the downstream-failure scenario. -/
def c1_issue : Issue :=
  { id := "i1"
    program_id := none
    title := "t"
    description := "d"
    status := "unverified"
    priority := "low"
    source := "slack"
    root_thread_id := "C1:111.222"
    deleted_at := none }

/-- Concrete event belonging to c1_issue. -/
def c1_event : Event :=
  { id := "e1"
    issue_id := "i1"
    source := "slack"
    external_id := some "111.222"
    author := "U1"
    body := "hello"
    event_type := "message_added"
    ai_metadata := PyVal.dict []
    attachments := []
    created_at := 1
    deleted_at := none }

/-- Concrete pending full_extraction job anchored at c1_event. -/
def c1_job : AIJob :=
  { id := "j1"
    event_id := "e1"
    job_type := "full_extraction"
    status := "pending"
    output := PyVal.dict []
    completed_at := none
    deleted_at := none }

/-- Concrete store for the downstream-failure scenario. -/
def c1_db : AiDB :=
  { issues := [c1_issue], events := [c1_event], jobs := [c1_job] }

/-- Downstream call that raises, as when AI_API_KEY is unset. -/
def c1_api : String → AiCallResult :=
  fun _ => AiCallResult.exn "AI_API_KEY environment variable is not set"

/-- C1 counterexample: with the anchor event and issue present and the
downstream call raising a missing-API-key exception, the job after
execution has status completed, not failed as the claim states, even
though the output does carry the error message. -/
theorem c1_counterexample :
    (process_ai_job c1_api 0 c1_db c1_job).2.1.status ≠ "failed"
    ∧ (process_ai_job c1_api 0 c1_db c1_job).2.1.status = "completed"
    ∧ (process_ai_job c1_api 0 c1_db c1_job).2.1.output =
        PyVal.dict [("error",
          PyVal.str "AI_API_KEY environment variable is not set")] :=
  ⟨by decide, rfl, rfl⟩

/-- Witness for c1_completed_on_downstream_exception at the concrete
store c1_db. -/
theorem c1_witness :
    (c1_db.events.find? (fun e => e.id == c1_job.event_id) = some c1_event)
    ∧ (c1_db.issues.find? (fun i => i.id == c1_event.issue_id) = some c1_issue)
    ∧ c1_job.job_type = "full_extraction"
    ∧ (get_issue_events c1_db c1_issue.id).isEmpty = false
    ∧ (process_ai_job c1_api 0 c1_db c1_job).2.1.status = "completed" :=
  ⟨rfl, rfl, rfl, rfl,
   (c1_completed_on_downstream_exception 0 c1_db c1_job c1_event c1_issue
     "AI_API_KEY environment variable is not set" rfl rfl rfl rfl).1⟩

/-- C8: when the anchor event and owning issue exist, the issue has
stored events, the model call succeeds and its response body fails JSON
parsing, the pipeline stores the fallback dict wrapping the raw text as
the job output (and completes the job) instead of raising. -/
theorem c8_malformed_output_fallback (now : Nat) (db : AiDB) (job : AIJob)
    (ev : Event) (iss : Issue) (content : String)
    (h1 : db.events.find? (fun e => e.id == job.event_id) = some ev)
    (h2 : db.issues.find? (fun i => i.id == ev.issue_id) = some iss)
    (h3 : job.job_type = "full_extraction")
    (h4 : (get_issue_events db iss.id).isEmpty = false)
    (h5 : json_loads content = none) :
    (process_ai_job (fun _ => AiCallResult.ok content) now db job).2.1.output =
      PyVal.dict [("summary", PyVal.str content),
                  ("raw_response", PyVal.str content)]
    ∧ (process_ai_job (fun _ => AiCallResult.ok content) now db job).2.1.status =
        "completed" := by
  unfold process_ai_job
  dsimp only [set_job_events, set_job_issues]
  rw [h1]
  dsimp only
  rw [h2]
  dsimp only
  rw [h3]
  rw [if_pos (by rfl)]
  unfold summarize_thread
  dsimp only
  rw [get_issue_events_set_job, h4]
  rw [if_neg (by simp)]
  rw [h5]
  exact ⟨rfl, rfl⟩

/-- Witness for c8_malformed_output_fallback at the concrete store c1_db
with the literal response body from the spec. -/
theorem c8_witness :
    (c1_db.events.find? (fun e => e.id == c1_job.event_id) = some c1_event)
    ∧ json_loads "not json" = none
    ∧ (process_ai_job (fun _ => AiCallResult.ok "not json") 0 c1_db
        c1_job).2.1.output =
        PyVal.dict [("summary", PyVal.str "not json"),
                    ("raw_response", PyVal.str "not json")] :=
  ⟨rfl, rfl,
   (c8_malformed_output_fallback 0 c1_db c1_job c1_event c1_issue "not json"
     rfl rfl rfl rfl rfl).1⟩

/-- Completed full_extraction job whose anchor event no longer exists,
used to exhibit the missing terminal-state guard. -/
def c2_job : AIJob :=
  { id := "j2"
    event_id := "missing"
    job_type := "full_extraction"
    status := "completed"
    output := PyVal.dict []
    completed_at := some 3
    deleted_at := none }

/-- Store in which c2_job is already terminal but its event is gone. -/
def c2_db : AiDB :=
  { issues := [], events := [], jobs := [c2_job] }

/-- Downstream call stub for the terminal-state scenario (never reached:
the event lookup fails first). -/
def c2_api : String → AiCallResult :=
  fun _ => AiCallResult.ok "irrelevant"

/-- C2: the code has no terminal-state guard: process_ai_job re-executes a
job whose status is already completed, and when its anchor event is
missing the job transitions from the terminal status completed to failed,
so terminal states are not preserved as the claim requires. -/
theorem c2_terminal_state_not_guarded :
    c2_job.status = "completed"
    ∧ (process_ai_job c2_api 0 c2_db c2_job).2.1.status = "failed"
    ∧ (process_ai_job c2_api 0 c2_db c2_job).2.1.status ≠ c2_job.status :=
  ⟨rfl, rfl, by decide⟩

/-- With no issue id supplied, permission resolution reads only the admin
list, the program store (through the channel binding) and the channel
owner sets; it is invariant under any change of the issue store and the
issue owner sets. -/
theorem get_user_permission_no_issue_congr (st st2 : BotState)
    (u ch : Option String)
    (hA : st.admin_users = st2.admin_users)
    (hP : st.programs = st2.programs)
    (hC : st.channel_owners = st2.channel_owners) :
    get_user_permission st u ch none = get_user_permission st2 u ch none := by
  unfold get_user_permission channel_program_owner issue_program_owner
    channel_owner_tier issue_owner_tier get_program_by_channel
    is_channel_owner ownersOf
  dsimp only
  rw [hA, hP, hC]

/-- C10: the guard wrapper decides only from the event user and channel
and never supplies an issue to the permission check, so its entire outcome
is unchanged under any change of the issue store and issue owner sets;
and when the check fails the wrapped action is not invoked at all and a
denial message is emitted. -/
theorem c10_guard_channel_only (α : Type) (st st2 : BotState)
    (required : Permission) (func : SlackEvent → α) (event : SlackEvent)
    (hA : st.admin_users = st2.admin_users)
    (hP : st.programs = st2.programs)
    (hC : st.channel_owners = st2.channel_owners) :
    require_permission st required func event =
      require_permission st2 required func event
    ∧ (has_permission st event.user required event.channel none = false →
        (require_permission st required func event).result = none
        ∧ (require_permission st required func event).messages ≠ []) := by
  have hperm : has_permission st event.user required event.channel none =
      has_permission st2 event.user required event.channel none := by
    unfold has_permission
    rw [get_user_permission_no_issue_congr st st2 event.user event.channel
      hA hP hC]
  constructor
  · unfold require_permission
    dsimp only
    rw [hperm]
  · intro h
    unfold require_permission
    dsimp only
    rw [h]
    exact ⟨rfl, by simp⟩

/-- Event used by the guard witness: a user who owns issue i1 but holds no
channel, program or admin privilege. -/
def c10_event : SlackEvent :=
  { user := some "u", channel := some "C", thread_ts := none, ts := some "1" }

/-- Guard witness state in which u is recorded as an issue owner. -/
def c10_state_a : BotState :=
  { admin_users := []
    programs := []
    issues := []
    issue_owners := [("i1", ["u"])]
    channel_owners := [] }

/-- Guard witness state with no issue owners at all. -/
def c10_state_b : BotState :=
  { admin_users := []
    programs := []
    issues := []
    issue_owners := []
    channel_owners := [] }

/-- Witness for c10_guard_channel_only: the guard denies the action
identically whether or not the user owns an issue, emits the denial
message and never invokes the wrapped function. -/
theorem c10_witness :
    (require_permission c10_state_a Permission.OWNER (fun _ => (0 : Nat))
        c10_event =
      require_permission c10_state_b Permission.OWNER (fun _ => (0 : Nat))
        c10_event)
    ∧ ((require_permission c10_state_a Permission.OWNER (fun _ => (0 : Nat))
          c10_event).result = none
       ∧ (require_permission c10_state_a Permission.OWNER (fun _ => (0 : Nat))
            c10_event).messages ≠ []) :=
  ⟨(c10_guard_channel_only Nat c10_state_a c10_state_b Permission.OWNER
      (fun _ => 0) c10_event rfl rfl rfl).1,
   (c10_guard_channel_only Nat c10_state_a c10_state_b Permission.OWNER
      (fun _ => 0) c10_event rfl rfl rfl).2 rfl⟩

end John
